import Mathlib

/-!
Shallow embedding of `litellm/llms/azure/completion/handler.py`
(`AzureTextCompletion`): Python values and dicts, the adapter's typed error
(`AzureOpenAIError`), client objects, the four call paths and their
observable effects (log events, client construction, network calls).
-/

set_option autoImplicit false

namespace AzureText

/-- A Python value, as far as the adapter inspects values. -/
inductive PyVal where
  | int (n : Int)
  | str (s : String)
  | bool (b : Bool)
  | none
  | ext (tag : String)
deriving Repr, DecidableEq

/-- A Python dict with string keys, as an association list (keys unique in
all dicts the adapter builds; operations below follow Python semantics). -/
abbrev PyDict := List (String × PyVal)

namespace PyDict

/-- `d.get(k)` / `d[k]` lookup: first binding of the key. -/
def get : PyDict → String → Option PyVal
  | [], _ => Option.none
  | (k', v) :: rest, k => if k' = k then some v else get rest k

/-- Remove a key (Python `del` / the removal half of `dict.pop`). -/
def erase : PyDict → String → PyDict
  | [], _ => []
  | (k', v) :: rest, k => if k' = k then erase rest k else (k', v) :: erase rest k

/-- Python `d.pop(k, dflt)`: the value (or default) and the mutated dict. -/
def pop (d : PyDict) (k : String) (dflt : PyVal) : PyVal × PyDict :=
  match d.get k with
  | some v => (v, d.erase k)
  | Option.none => (dflt, d)

/-- Python `d[k] = v`: replace the first binding in place, else append. -/
def insert : PyDict → String → PyVal → PyDict
  | [], k, v => [(k, v)]
  | (k', v') :: rest, k, v =>
      if k' = k then (k, v) :: rest else (k', v') :: insert rest k v

/-- Python `{**d, **e}`: bindings of `e` written over `d`, in order. -/
def union (d e : PyDict) : PyDict :=
  e.foldl (fun acc p => acc.insert p.1 p.2) d

/-- Python `d.setdefault(k, v)` (resulting dict; the code drops the value). -/
def setdefault (d : PyDict) (k : String) (v : PyVal) : PyDict :=
  if (d.get k).isSome then d else d ++ [(k, v)]

end PyDict

/-- Python truthiness of the values the adapter tests with `if x:`. -/
def PyVal.truthy : PyVal → Bool
  | .int n => n ≠ 0
  | .str s => s ≠ ""
  | .bool b => b
  | .none => false
  | .ext _ => true

/-- Python `x is True`. -/
def PyVal.isTrue : PyVal → Bool
  | .bool b => b
  | _ => false

/-- Python `isinstance(x, int)` (a `bool` is an `int` in Python). -/
def PyVal.isInt : PyVal → Bool
  | .int _ => true
  | .bool _ => true
  | _ => false

/-- `Option String` credential/version rendered as the Python value put in a
dict literal (`None` when absent). -/
def optStr : Option String → PyVal
  | some s => .str s
  | Option.none => .none

/-- Auxiliary for the substring test: does `sub` occur in the list? -/
def containsAux (sub : List Char) : List Char → Bool
  | [] => sub.isEmpty
  | c :: rest => sub.isPrefixOf (c :: rest) || containsAux sub rest

/-- Python `sub in s` on strings (substring test), over character lists. -/
def strContains (s sub : String) : Bool :=
  containsAux sub.data s.data

/-- Python `s.endswith(post)`, over character lists. -/
def strEndsWith (s post : String) : Bool :=
  post.data.isSuffixOf s.data

/-- HTTP-style header mapping carried by errors. -/
abbrev Headers := List (String × String)

/-- The adapter's typed error (`AzureOpenAIError` from `..common_utils`,
outside this file's sources): a status code, a message, optional headers —
the spec's `ErrorEnvelope`. -/
structure AzureOpenAIError where
  status_code : Nat
  message : String
  headers : Option Headers
deriving Repr, DecidableEq

/-- The nested `e.response` object of a vendor exception, as far as the
handler reads it (`getattr(error_response, "headers", None)`). -/
structure ExcResponse where
  headers : Option Headers
deriving Repr, DecidableEq

/-- Any exception other than the adapter's typed error, as far as the
handler reads it: optional `status_code`, optional `headers`, optional
nested `response`, and its `str(e)` rendering. -/
structure GenericExc where
  status_code : Option Nat
  headers : Option Headers
  response : Option ExcResponse
  str : String
deriving Repr, DecidableEq

/-- Header recovery of the `except Exception` handlers: `e.headers`, else
`e.response.headers` when a (truthy) `response` is present, else `None`. -/
def recoverErrorHeaders (e : GenericExc) : Option Headers :=
  match e.headers, e.response with
  | some h, _ => some h
  | Option.none, some r => r.headers
  | Option.none, Option.none => Option.none

/-- The `except Exception` normalization (lines 214-222, 273-281, 379-387):
`AzureOpenAIError(status_code=getattr(e, "status_code", 500),
message=str(e), headers=...)`. -/
def wrapGeneric (e : GenericExc) : AzureOpenAIError :=
  ⟨e.status_code.getD 500, e.str, recoverErrorHeaders e⟩

/-- An exception in flight inside a call path: the adapter's typed error or
anything else. -/
inductive PyExc where
  | azure (e : AzureOpenAIError)
  | generic (e : GenericExc)
deriving Repr, DecidableEq

/-- The handler pair of `completion`/`acompletion`:
`except AzureOpenAIError as e: raise e` (verbatim), then
`except Exception` normalization. -/
def handleCompletionExc : PyExc → AzureOpenAIError
  | .azure e => e
  | .generic e => wrapGeneric e

/-- A vendor client object (`AzureOpenAI` / `AsyncAzureOpenAI`), as far as
the handler touches it: its `_custom_query` mapping (`some q` when the
attribute is a dict, `Option.none` when the `isinstance(..., dict)` test
fails), its `api_key` and its base url. -/
structure AzureClientObj where
  custom_query : Option PyDict
  api_key : String
  base_url : String
deriving Repr, DecidableEq

/-- The `else` branch of client resolution (lines 180-188, 245-251,
304-308, 349-355): on a supplied client, when `api_version is not None and
isinstance(azure_client._custom_query, dict)`, run
`_custom_query.setdefault("api-version", api_version)`. -/
def applyApiVersion (c : AzureClientObj) (api_version : Option String) : AzureClientObj :=
  match api_version, c.custom_query with
  | some v, some q => { c with custom_query := some (q.setdefault "api-version" (.str v)) }
  | _, _ => c

/-- The parsed vendor response (`raw_response.parse()`); `dump` is its
`model_dump()` rendering. For streaming calls the same object stands for
the raw, unconsumed stream. -/
structure VendorResponse where
  dump : PyDict
deriving Repr, DecidableEq

/-- The external collaborators, as oracles: the prompt formatter, the
parameter set built by `initialize_azure_sdk_client`, the vendor client
constructors (which may raise), the network call (which may raise), and the
response normalizer `convert_to_chat_model_response_object`. -/
structure Env where
  prompt_factory : List PyVal → String → String
  initSdkParams : PyDict
  mkClient : Bool → PyDict → Except GenericExc AzureClientObj
  netCall : PyDict → PyVal → Except GenericExc VendorResponse
  convert : PyDict → PyDict

/-- Observable effects of a call, in order: a pre-call log event, a vendor
client construction (tagged async or not, with the parameter dict), a
network call (with the payload and timeout), a post-call log event. -/
inductive Event where
  | pre_call (input : PyVal) (complete_input_dict : PyDict)
  | mk_client (isAsync : Bool) (params : PyDict)
  | network_call (data : PyDict) (timeout : PyVal)
  | post_call (input : PyVal) (original_response : PyDict)
deriving Repr, DecidableEq

/-- Arguments captured by the coroutine `completion` returns on the
asynchronous branches (lines 118-144); nothing runs until it is awaited. -/
structure AsyncArgs where
  streaming : Bool
  data : PyDict
  model : String
  api_version : Option String
  timeout : PyVal
  client : Option AzureClientObj
  azure_client_params : PyDict
  logging_obj : Nat
deriving Repr, DecidableEq

/-- What `completion` returns on success: the normalized response object,
the `CustomStreamWrapper` (fields as constructed at lines 324-329 and
372-377), or a coroutine for the async branches. -/
inductive RetVal where
  | modelResp (d : PyDict)
  | streamWrapper (completion_stream : VendorResponse) (model : String)
      (custom_llm_provider : String) (logging_obj : Nat)
  | coroutine (args : AsyncArgs)
deriving Repr, DecidableEq

/-- Outcome of one sync call-path body before the outer `except` clauses:
result or in-flight exception, the emitted events, and the state of the
client object that was passed in (`some` iff one was passed in). -/
structure PathOut where
  result : Except PyExc RetVal
  trace : List Event
  clientAfter : Option AzureClientObj
deriving Repr

/-- Outcome of the whole entry point: result after exception handling, the
events, the caller-supplied client after the call, and the caller's
`optional_params` dict after the call (it is mutated in place). -/
structure RunResult where
  result : Except AzureOpenAIError RetVal
  trace : List Event
  finalClient : Option AzureClientObj
  finalOptionalParams : PyDict
deriving Repr

/-- Outcome of awaiting one of the async coroutines. -/
structure AsyncResult where
  result : Except AzureOpenAIError RetVal
  trace : List Event
  finalClient : Option AzureClientObj
deriving Repr

/-- Applying the `except AzureOpenAIError` / `except Exception` pair of
`completion` (lines 212-222) to a path outcome. -/
def runExcept : Except PyExc RetVal → Except AzureOpenAIError RetVal
  | .ok v => .ok v
  | .error e => .error (handleCompletionExc e)

/-- Endpoint rewrite of the Cloudflare gateway branch (lines 87-89):
append `/` when missing, then the model name. -/
def cfRewriteBase (api_base model : String) : String :=
  (if strEndsWith api_base "/" then api_base else api_base ++ "/") ++ model

/-- The client parameter dict rebuilt from scratch in the Cloudflare
gateway branch (lines 91-101). -/
def cfClientParams (api_version : Option String) (base_url : String)
    (max_retries timeout : PyVal) (api_key azure_ad_token : Option String) : PyDict :=
  let base : PyDict :=
    [("api_version", optStr api_version), ("base_url", .str base_url),
     ("http_client", .ext "litellm.client_session"),
     ("max_retries", max_retries), ("timeout", timeout)]
  match api_key, azure_ad_token with
  | some k, _ => base.insert "api_key" (.str k)
  | Option.none, some t => base.insert "azure_ad_token" (.str t)
  | Option.none, Option.none => base

/-- The request payload (lines 108-114): `{"model": None | model,
"prompt": prompt, **optional_params}` (`None` on the gateway branch). -/
def buildData (modelNull : Bool) (model prompt : String) (op : PyDict) : PyDict :=
  PyDict.union
    [("model", if modelNull then PyVal.none else .str model), ("prompt", .str prompt)] op

/-- `validate_environment` (lines 32-40): content-type header plus
`api-key` when an api key is present, else a bearer `Authorization` header
when an AD token is present, else neither. -/
def validate_environment (api_key azure_ad_token : Option String) : PyDict :=
  let headers : PyDict := [("content-type", .str "application/json")]
  match api_key, azure_ad_token with
  | some k, _ => headers.insert "api-key" (.str k)
  | Option.none, some t => headers.insert "Authorization" (.str ("Bearer " ++ t))
  | Option.none, Option.none => headers

/-- Line 145: `"stream" in optional_params and optional_params["stream"] is True`. -/
def streamRequested (op : PyDict) : Bool :=
  match op.get "stream" with
  | some v => v.isTrue
  | Option.none => false

/-- Tail of the sync streaming path (lines 309-330): pre-call log with
`data["prompt"]`, network call, wrap the raw stream in
`CustomStreamWrapper(completion_stream=response, model=model,
custom_llm_provider="azure_text", logging_obj=logging_obj)`. -/
def streamFinish (env : Env) (data : PyDict) (model : String) (timeout : PyVal)
    (logging_obj : Nat) (after : Option AzureClientObj) (ev : List Event) : PathOut :=
  let pre := Event.pre_call ((data.get "prompt").getD .none) data
  match env.netCall data timeout with
  | .error g => ⟨.error (.generic g), ev ++ [pre, .network_call data timeout], after⟩
  | .ok r => ⟨.ok (.streamWrapper r model "azure_text" logging_obj),
      ev ++ [pre, .network_call data timeout], after⟩

/-- `streaming` (lines 283-330): pop `max_retries` from the payload
(default 2), 422 when it is not an int, resolve the client (construct, or
reuse with the api-version set-if-absent), then `streamFinish`. It has no
`try`/`except` of its own; exceptions flow to `completion`'s handlers. -/
def streamingRun (env : Env) (api_version : Option String) (data0 : PyDict)
    (model : String) (timeout : PyVal) (logging_obj : Nat)
    (client : Option AzureClientObj) (azure_client_params : PyDict) : PathOut :=
  let pr := data0.pop "max_retries" (.int 2)
  let data := pr.2
  if pr.1.isInt = false then
    ⟨.error (.azure ⟨422, "max retries must be an int", Option.none⟩), [], client⟩
  else
    match client with
    | Option.none =>
      match env.mkClient false azure_client_params with
      | .error g => ⟨.error (.generic g), [.mk_client false azure_client_params], Option.none⟩
      | .ok _ => streamFinish env data model timeout logging_obj Option.none
          [.mk_client false azure_client_params]
    | some c =>
      streamFinish env data model timeout logging_obj (some (applyApiVersion c api_version)) []

/-- Tail of the sync non-streaming path (lines 190-211): network call,
then post-call log with the dumped response, then the normalizer's result. -/
def nonStreamFinish (env : Env) (data : PyDict) (prompt : String) (timeout : PyVal)
    (after : Option AzureClientObj) (ev : List Event) : PathOut :=
  match env.netCall data timeout with
  | .error g => ⟨.error (.generic g), ev ++ [.network_call data timeout], after⟩
  | .ok r => ⟨.ok (.modelResp (env.convert r.dump)),
      ev ++ [.network_call data timeout, .post_call (.str prompt) r.dump], after⟩

/-- Sync non-streaming path of `completion` (lines 158-211): pre-call log
first, then the `isinstance(max_retries, int)` check (422), then client
resolution, then `nonStreamFinish`. -/
def nonStreamingRun (env : Env) (api_version : Option String) (data : PyDict)
    (prompt : String) (max_retries timeout : PyVal)
    (client : Option AzureClientObj) (azure_client_params : PyDict) : PathOut :=
  let pre := Event.pre_call (.str prompt) data
  if max_retries.isInt = false then
    ⟨.error (.azure ⟨422, "max retries must be an int", Option.none⟩), [pre], client⟩
  else
    match client with
    | Option.none =>
      match env.mkClient false azure_client_params with
      | .error g => ⟨.error (.generic g), [pre, .mk_client false azure_client_params], Option.none⟩
      | .ok _ => nonStreamFinish env data prompt timeout Option.none
          [pre, .mk_client false azure_client_params]
    | some c =>
      nonStreamFinish env data prompt timeout (some (applyApiVersion c api_version)) [pre]

/-- Assemble a `RunResult` from a path outcome: apply the outer `except`
clauses, prefix the events of the gateway client construction, and report
the caller's client state only when the caller supplied one. -/
def finish (callerClient : Option AzureClientObj) (op : PyDict) (ev0 : List Event)
    (po : PathOut) : RunResult :=
  ⟨runExcept po.result, ev0 ++ po.trace,
    match callerClient with
    | Option.none => Option.none
    | some _ => po.clientAfter, op⟩

/-- Dispatch of `completion` (lines 116-211) after prompt/payload setup:
async branches return coroutines at once; sync branches run `streaming` or
the non-streaming tail. -/
def dispatchRun (env : Env) (ev0 : List Event) (azure_client_params : PyDict)
    (localClient callerClient : Option AzureClientObj) (modelNull : Bool)
    (op : PyDict) (max_retries : PyVal) (prompt model : String)
    (api_version : Option String) (timeout : PyVal) (logging_obj : Nat)
    (acompletion : Bool) : RunResult :=
  let data := buildData modelNull model prompt op
  if acompletion then
    ⟨.ok (.coroutine ⟨((op.get "stream").getD .none).truthy, data, model, api_version,
        timeout, localClient, azure_client_params, logging_obj⟩),
      ev0, callerClient, op⟩
  else if streamRequested op then
    finish callerClient op ev0
      (streamingRun env api_version data model timeout logging_obj localClient
        azure_client_params)
  else
    finish callerClient op ev0
      (nonStreamingRun env api_version data prompt max_retries timeout localClient
        azure_client_params)

/-- The 422 raised when model or messages is absent (lines 64-67). -/
def missingErr : AzureOpenAIError := ⟨422, "Missing model or messages", Option.none⟩

/-- `AzureTextCompletion.completion` (lines 42-222): the 422 guard on
missing model/messages, the in-place pop of `max_retries` (default 2), the
prompt, the sdk parameter set, the Cloudflare gateway branch (endpoint
rewrite, parameter rebuild, eager client construction, null model in the
payload), then the four-way dispatch under the outer `except` clauses. -/
def completionRun (env : Env) (model? : Option String) (messages? : Option (List PyVal))
    (api_key : Option String) (api_base : String) (api_version : Option String)
    (azure_ad_token : Option String) (timeout : PyVal) (logging_obj : Nat)
    (optional_params : PyDict) (acompletion : Bool)
    (client : Option AzureClientObj) : RunResult :=
  match model?, messages? with
  | Option.none, _ => ⟨.error missingErr, [], client, optional_params⟩
  | some _, Option.none => ⟨.error missingErr, [], client, optional_params⟩
  | some model, some messages =>
    let pr := optional_params.pop "max_retries" (.int 2)
    let max_retries := pr.1
    let op := pr.2
    let prompt := env.prompt_factory messages model
    if strContains api_base "gateway.ai.cloudflare.com" then
      match client with
      | Option.none =>
        let params2 := cfClientParams api_version (cfRewriteBase api_base model)
          max_retries timeout api_key azure_ad_token
        match env.mkClient acompletion params2 with
        | .error g =>
          ⟨.error (handleCompletionExc (.generic g)), [.mk_client acompletion params2],
            Option.none, op⟩
        | .ok c2 =>
          dispatchRun env [.mk_client acompletion params2] params2 (some c2) Option.none
            true op max_retries prompt model api_version timeout logging_obj acompletion
      | some c =>
        dispatchRun env [] env.initSdkParams (some c) (some c) true op max_retries
          prompt model api_version timeout logging_obj acompletion
    else
      dispatchRun env [] env.initSdkParams client client false op max_retries
        prompt model api_version timeout logging_obj acompletion

/-- `AzureTextCompletion.acompletion` (lines 224-281), as run when awaited:
client resolution (async constructor, or reuse with the api-version
set-if-absent), pre-call log, network call, normalizer; the whole body
under the `except AzureOpenAIError` / `except Exception` pair. -/
def acompletionRun (env : Env) (api_version : Option String) (data : PyDict)
    (timeout : PyVal) (client : Option AzureClientObj)
    (azure_client_params : PyDict) : AsyncResult :=
  let body : PathOut :=
    match client with
    | Option.none =>
      match env.mkClient true azure_client_params with
      | .error g => ⟨.error (.generic g), [.mk_client true azure_client_params], Option.none⟩
      | .ok _ =>
        let pre := Event.pre_call ((data.get "prompt").getD .none) data
        match env.netCall data timeout with
        | .error g => ⟨.error (.generic g),
            [.mk_client true azure_client_params, pre, .network_call data timeout], Option.none⟩
        | .ok r => ⟨.ok (.modelResp (env.convert r.dump)),
            [.mk_client true azure_client_params, pre, .network_call data timeout], Option.none⟩
    | some c =>
      let c2 := applyApiVersion c api_version
      let pre := Event.pre_call ((data.get "prompt").getD .none) data
      match env.netCall data timeout with
      | .error g => ⟨.error (.generic g), [pre, .network_call data timeout], some c2⟩
      | .ok r => ⟨.ok (.modelResp (env.convert r.dump)),
          [pre, .network_call data timeout], some c2⟩
  ⟨runExcept body.result, body.trace,
    match client with
    | Option.none => Option.none
    | some _ => body.clientAfter⟩

/-- The `except Exception` clause of `async_streaming` (lines 379-387): it
has no separate `except AzureOpenAIError` clause, so everything in flight
is normalized with the generic extraction. -/
def handleAsyncStreamExc : PyExc → AzureOpenAIError
  | .azure e => ⟨e.status_code, e.message, e.headers⟩
  | .generic e => wrapGeneric e

/-- `AzureTextCompletion.async_streaming` (lines 332-387), as run when
awaited: client resolution, pre-call log, network call, stream wrapper;
every exception normalized by the single `except Exception` clause. -/
def asyncStreamingRun (env : Env) (api_version : Option String) (data : PyDict)
    (model : String) (timeout : PyVal) (logging_obj : Nat)
    (client : Option AzureClientObj) (azure_client_params : PyDict) : AsyncResult :=
  let body : PathOut :=
    match client with
    | Option.none =>
      match env.mkClient true azure_client_params with
      | .error g => ⟨.error (.generic g), [.mk_client true azure_client_params], Option.none⟩
      | .ok _ => streamFinish env data model timeout logging_obj Option.none
          [.mk_client true azure_client_params]
    | some c =>
      streamFinish env data model timeout logging_obj (some (applyApiVersion c api_version)) []
  ⟨(match body.result with
    | .ok v => .ok v
    | .error e => .error (handleAsyncStreamExc e)), body.trace,
    match client with
    | Option.none => Option.none
    | some _ => body.clientAfter⟩

/-! ### Dictionary lemmas -/

namespace PyDict

theorem get_insert_of_ne (d : PyDict) {k' k : String} (v : PyVal) (h : k' ≠ k) :
    (d.insert k' v).get k = d.get k := by
  induction d with
  | nil => simp [insert, get, h]
  | cons p rest ih =>
    by_cases hp : p.1 = k'
    · simp [insert, hp, get, h, fun hh : k' = k => h hh]
    · cases p with
      | mk a b => simp only [insert, get] at *; rw [if_neg hp]; simp [get, ih]

theorem get_union_of_get_none {e : PyDict} (d : PyDict) {k : String}
    (h : e.get k = Option.none) : (d.union e).get k = d.get k := by
  induction e generalizing d with
  | nil => rfl
  | cons p rest ih =>
    cases p with
    | mk a b =>
      simp only [get] at h
      by_cases ha : a = k
      · simp [ha] at h
      · rw [if_neg ha] at h
        show (union (d.insert a b) rest).get k = d.get k
        rw [ih (d.insert a b) h, get_insert_of_ne d b ha]

theorem get_append {d : PyDict} (e : PyDict) {k : String}
    (h : d.get k = Option.none) : (d ++ e).get k = e.get k := by
  induction d with
  | nil => rfl
  | cons p rest ih =>
    cases p with
    | mk a b =>
      simp only [get] at h
      by_cases ha : a = k
      · simp [ha] at h
      · rw [if_neg ha] at h
        simpa [get, ha] using ih h

theorem get_erase_self (d : PyDict) (k : String) : (d.erase k).get k = Option.none := by
  induction d with
  | nil => rfl
  | cons p rest ih =>
    cases p with
    | mk a b =>
      by_cases ha : a = k
      · simpa [erase, ha] using ih
      · simp [erase, ha, get, ih]

theorem erase_of_get_none {d : PyDict} {k : String} (h : d.get k = Option.none) :
    d.erase k = d := by
  induction d with
  | nil => rfl
  | cons p rest ih =>
    cases p with
    | mk a b =>
      simp only [get] at h
      by_cases ha : a = k
      · simp [ha] at h
      · rw [if_neg ha] at h
        simp [erase, ha, ih h]

theorem pop_snd_get_none (d : PyDict) (k : String) (dflt : PyVal) :
    (d.pop k dflt).2.get k = Option.none := by
  unfold pop
  cases h : d.get k with
  | none => simpa using h
  | some v => simpa using get_erase_self d k

theorem pop_snd_eq_erase (d : PyDict) (k : String) (dflt : PyVal) :
    (d.pop k dflt).2 = d.erase k := by
  unfold pop
  cases h : d.get k with
  | none => simpa using (erase_of_get_none h).symm
  | some v => rfl

theorem pop_fst_of_get_none {d : PyDict} {k : String} (dflt : PyVal)
    (h : d.get k = Option.none) : (d.pop k dflt).1 = dflt := by
  unfold pop; rw [h]

theorem setdefault_of_get_none {d : PyDict} {k : String} (v : PyVal)
    (h : d.get k = Option.none) : d.setdefault k v = d ++ [(k, v)] := by
  unfold setdefault; rw [h]; rfl

theorem get_setdefault_of_get_none {d : PyDict} {k : String} (v : PyVal)
    (h : d.get k = Option.none) : (d.setdefault k v).get k = some v := by
  rw [setdefault_of_get_none v h, get_append _ h]; simp [get]

theorem setdefault_of_get_some {d : PyDict} {k : String} {w : PyVal} (v : PyVal)
    (h : d.get k = some w) : d.setdefault k v = d := by
  unfold setdefault; rw [h]; rfl

end PyDict

/-- The rewritten gateway endpoint always ends in `"/" ++ model`. -/
theorem strEndsWith_cfRewriteBase (s m : String) :
    strEndsWith (cfRewriteBase s m) ("/" ++ m) = true := by
  unfold cfRewriteBase
  by_cases h : strEndsWith s "/" = true
  · rw [if_pos h]
    unfold strEndsWith at h ⊢
    rw [List.isSuffixOf_iff_suffix] at h ⊢
    obtain ⟨t, ht⟩ := h
    exact ⟨t, by simp only [String.data_append, ← List.append_assoc, ht]⟩
  · rw [if_neg h]
    unfold strEndsWith
    rw [List.isSuffixOf_iff_suffix]
    exact ⟨s.data, by simp only [String.data_append, List.append_assoc]⟩

/-! ### Concrete objects for witnesses and counterexamples -/

/-- A concrete vendor client with an empty `_custom_query` dict. -/
def c0 : AzureClientObj := ⟨some [], "key0", "https://b/openai"⟩

/-- A concrete parsed vendor response. -/
def r0 : VendorResponse := ⟨[("id", .str "1")]⟩

/-- A concrete environment whose external calls all succeed. -/
def env0 : Env :=
  ⟨fun _ m => "p:" ++ m, [("azure_endpoint", .str "https://e")],
    fun _ _ => .ok c0, fun _ _ => .ok r0, fun d => d⟩

/-! ### Claims -/

/-- C1: for every call to `completion` in which `model` or `messages` is
`None`, the adapter raises `AzureOpenAIError` with status 422 ("Missing
model or messages"), regardless of all other parameters, with no network
call, no client construction, no log event, and no payload construction
(empty trace), and without touching the client or the options dict. -/
theorem claim_C1_missing_model_or_messages (env : Env) (model? : Option String)
    (messages? : Option (List PyVal)) (api_key : Option String) (api_base : String)
    (api_version azure_ad_token : Option String) (timeout : PyVal) (lg : Nat)
    (op : PyDict) (acomp : Bool) (client : Option AzureClientObj)
    (h : model? = Option.none ∨ messages? = Option.none) :
    completionRun env model? messages? api_key api_base api_version azure_ad_token
        timeout lg op acomp client =
      ⟨.error ⟨422, "Missing model or messages", Option.none⟩, [], client, op⟩ := by
  rcases h with h | h
  · subst h; rfl
  · subst h; cases model? <;> rfl

/-- Witness for C1 at a concrete input. -/
theorem claim_C1_missing_model_or_messages_witness :
    completionRun env0 Option.none (some []) Option.none "https://b" Option.none
        Option.none (.int 1) 0 [] false Option.none =
      ⟨.error ⟨422, "Missing model or messages", Option.none⟩, [], Option.none, []⟩ :=
  claim_C1_missing_model_or_messages env0 Option.none (some []) Option.none
    "https://b" Option.none Option.none (.int 1) 0 [] false Option.none (Or.inl rfl)

/-- C2 counterexample: with `max_retries = "two"` (not an int) and
`stream = True` on the fully synchronous path, the adapter does NOT raise
the 422 error — the call proceeds and returns the stream wrapper, because
`max_retries` was already popped from `optional_params` before the payload
was built, so the check inside `streaming` only ever sees the default 2. -/
theorem claim_C2_counterexample :
    (completionRun env0 (some "m") (some []) Option.none "https://b" Option.none
        Option.none (.int 1) 7 [("max_retries", .str "two"), ("stream", .bool true)]
        false Option.none).result =
      .ok (.streamWrapper r0 "m" "azure_text" 7) := by
  rfl

/-- C2 (amended): a non-integer `max_retries` raises the 422 typed error on
the synchronous non-streaming path; on the synchronous streaming path
reached through `completion` no such error is raised — `max_retries` has
already been removed from the options before the payload is built, so
`streaming`'s check sees the default 2 and the call proceeds to return the
stream wrapper. -/
theorem claim_C2_amended (env : Env) (m : String) (msgs : List PyVal)
    (api_key : Option String) (api_base : String) (ver tok : Option String)
    (t : PyVal) (lg : Nat) (op1 op2 : PyDict) (client : Option AzureClientObj)
    (mr : PyVal) (c : AzureClientObj) (r : VendorResponse)
    (hcf : strContains api_base "gateway.ai.cloudflare.com" = false)
    (h1 : op1.get "max_retries" = some mr) (hmr : mr.isInt = false)
    (h1s : streamRequested (op1.erase "max_retries") = false)
    (h2 : op2.get "max_retries" = some mr)
    (h2s : streamRequested (op2.erase "max_retries") = true)
    (hmk : ∀ b p, env.mkClient b p = .ok c)
    (hnet : ∀ d t', env.netCall d t' = .ok r) :
    (completionRun env (some m) (some msgs) api_key api_base ver tok t lg op1 false
        client).result = .error ⟨422, "max retries must be an int", Option.none⟩ ∧
    (completionRun env (some m) (some msgs) api_key api_base ver tok t lg op2 false
        client).result = .ok (.streamWrapper r m "azure_text" lg) := by
  constructor
  · simp [completionRun, PyDict.pop, h1, hcf, dispatchRun, h1s, nonStreamingRun, hmr,
      finish, runExcept, handleCompletionExc]
  · have hdata : (buildData false m (env.prompt_factory msgs m)
        (op2.erase "max_retries")).get "max_retries" = Option.none := by
      apply PyDict.get_union_of_get_none
      exact PyDict.get_erase_self op2 "max_retries"
    cases client with
    | none =>
      simp [completionRun, PyDict.pop, h2, hcf, dispatchRun, h2s, streamingRun,
        hdata, PyVal.isInt, streamFinish, hmk, hnet, finish, runExcept]
    | some c' =>
      simp [completionRun, PyDict.pop, h2, hcf, dispatchRun, h2s, streamingRun,
        hdata, PyVal.isInt, streamFinish, hmk, hnet, finish, runExcept]

/-- Witness for the amended C2 at concrete inputs. -/
theorem claim_C2_amended_witness :
    (completionRun env0 (some "m") (some []) Option.none "https://b" Option.none
        Option.none (.int 1) 7 [("max_retries", .str "two")] false Option.none).result =
      .error ⟨422, "max retries must be an int", Option.none⟩ ∧
    (completionRun env0 (some "m") (some []) Option.none "https://b" Option.none
        Option.none (.int 1) 7 [("max_retries", .str "two"), ("stream", .bool true)]
        false Option.none).result = .ok (.streamWrapper r0 "m" "azure_text" 7) :=
  claim_C2_amended env0 "m" [] Option.none "https://b" Option.none Option.none
    (.int 1) 7 [("max_retries", .str "two")]
    [("max_retries", .str "two"), ("stream", .bool true)] Option.none (.str "two")
    c0 r0 rfl rfl rfl rfl rfl rfl (fun _ _ => rfl) (fun _ _ => rfl)

/-- A concrete vendor exception with `status_code=429`, no `headers`, and a
nested `response.headers = {"Retry-After": "2"}`. -/
def gex : GenericExc := ⟨some 429, Option.none, some ⟨some [("Retry-After", "2")]⟩, "boom"⟩

/-- A concrete vendor exception with no attributes beyond its message. -/
def gex2 : GenericExc := ⟨Option.none, Option.none, Option.none, "ctor failed"⟩

/-- `env0` with a failing network call. -/
def envNetErr : Env := { env0 with netCall := fun _ _ => .error gex }

/-- `env0` with a failing client constructor. -/
def envCtorErr : Env := { env0 with mkClient := fun _ _ => .error gex2 }

/-- C3: any exception other than the adapter's own typed error, raised
during client construction or the network call, is re-raised as
`AzureOpenAIError` with `status_code` from the exception (500 when absent),
message `str(e)`, and headers from the exception's `headers` attribute or,
when that is absent, from its nested `response.headers`; in particular an
exception with `status_code=429`, no headers, and
`response.headers={"Retry-After": "2"}` yields status 429 and those
headers. Covers the sync path (lines 212-222) and the awaited async
non-streaming path (lines 273-281). -/
theorem claim_C3_error_normalization (env1 env2 : Env) (g1 g2 : GenericExc)
    (c : AzureClientObj) (m s : String) (msgs : List PyVal) (api_key : Option String)
    (api_base : String) (ver tok : Option String) (t : PyVal) (lg : Nat)
    (d params : PyDict)
    (hcf : strContains api_base "gateway.ai.cloudflare.com" = false)
    (hnet1 : ∀ d' t', env1.netCall d' t' = .error g1)
    (hmk2 : ∀ b p, env2.mkClient b p = .error g2) :
    (completionRun env1 (some m) (some msgs) api_key api_base ver tok t lg [] false
        (some c)).result = .error (wrapGeneric g1) ∧
    (acompletionRun env1 ver d t (some c) params).result = .error (wrapGeneric g1) ∧
    (completionRun env2 (some m) (some msgs) api_key api_base ver tok t lg [] false
        Option.none).result = .error (wrapGeneric g2) ∧
    wrapGeneric ⟨some 429, Option.none, some ⟨some [("Retry-After", "2")]⟩, s⟩ =
      ⟨429, s, some [("Retry-After", "2")]⟩ := by
  refine ⟨?_, ?_, ?_, rfl⟩
  · simp [completionRun, PyDict.pop, PyDict.get, hcf, dispatchRun, streamRequested,
      PyDict.union, buildData, nonStreamingRun, PyVal.isInt, nonStreamFinish, hnet1,
      finish, runExcept, handleCompletionExc]
  · cases hre : env1.netCall d t with
    | ok r => rw [hnet1 d t] at hre; cases hre
    | error g =>
      rw [hnet1 d t] at hre
      cases hre
      simp [acompletionRun, hnet1, runExcept, handleCompletionExc]
  · simp [completionRun, PyDict.pop, PyDict.get, hcf, dispatchRun, streamRequested,
      PyDict.union, buildData, nonStreamingRun, PyVal.isInt, hmk2,
      finish, runExcept, handleCompletionExc]

/-- Witness for C3 at concrete inputs. -/
theorem claim_C3_error_normalization_witness :
    (completionRun envNetErr (some "m") (some []) Option.none "https://b" Option.none
        Option.none (.int 1) 7 [] false (some c0)).result = .error (wrapGeneric gex) ∧
    (acompletionRun envNetErr Option.none [] (.int 1) (some c0) []).result =
      .error (wrapGeneric gex) ∧
    (completionRun envCtorErr (some "m") (some []) Option.none "https://b" Option.none
        Option.none (.int 1) 7 [] false Option.none).result =
      .error (wrapGeneric gex2) ∧
    wrapGeneric ⟨some 429, Option.none, some ⟨some [("Retry-After", "2")]⟩, "boom"⟩ =
      ⟨429, "boom", some [("Retry-After", "2")]⟩ :=
  claim_C3_error_normalization envNetErr envCtorErr gex gex2 c0 "m" "boom" []
    Option.none "https://b" Option.none Option.none (.int 1) 7 [] [] rfl
    (fun _ _ => rfl) (fun _ _ => rfl)

/-- C6: on every call path, the adapter's own typed error is re-raised
verbatim by the `except AzureOpenAIError` clause (first conjunct), and
every other exception is converted to the typed error before leaving the
component — shown here for a network failure on the sync non-streaming,
sync streaming, awaited async non-streaming and awaited async streaming
paths, so callers never observe a raw vendor exception (the result type of
every path is the normalized response or the typed error). -/
theorem claim_C6_propagation_policy (env : Env) (g : GenericExc) (c : AzureClientObj)
    (m : String) (msgs : List PyVal) (api_key : Option String) (api_base : String)
    (ver tok : Option String) (t : PyVal) (lg : Nat) (d params : PyDict)
    (hcf : strContains api_base "gateway.ai.cloudflare.com" = false)
    (hnet : ∀ d' t', env.netCall d' t' = .error g) :
    (∀ e : AzureOpenAIError, handleCompletionExc (.azure e) = e) ∧
    (completionRun env (some m) (some msgs) api_key api_base ver tok t lg [] false
        (some c)).result = .error (wrapGeneric g) ∧
    (completionRun env (some m) (some msgs) api_key api_base ver tok t lg
        [("stream", .bool true)] false (some c)).result = .error (wrapGeneric g) ∧
    (acompletionRun env ver d t (some c) params).result = .error (wrapGeneric g) ∧
    (asyncStreamingRun env ver d m t lg (some c) params).result =
      .error (wrapGeneric g) := by
  refine ⟨fun e => rfl, ?_, ?_, ?_, ?_⟩
  · simp [completionRun, PyDict.pop, PyDict.get, hcf, dispatchRun, streamRequested,
      PyDict.union, buildData, nonStreamingRun, PyVal.isInt, nonStreamFinish, hnet,
      finish, runExcept, handleCompletionExc]
  · simp [completionRun, PyDict.pop, PyDict.get, hcf, dispatchRun, streamRequested,
      PyVal.isTrue, PyDict.union, buildData, streamingRun, PyVal.isInt, streamFinish,
      hnet, finish, runExcept, handleCompletionExc]
  · simp [acompletionRun, hnet, runExcept, handleCompletionExc]
  · simp [asyncStreamingRun, streamFinish, hnet, handleAsyncStreamExc]

/-- Witness for C6 at concrete inputs. -/
theorem claim_C6_propagation_policy_witness :
    (∀ e : AzureOpenAIError, handleCompletionExc (.azure e) = e) ∧
    (completionRun envNetErr (some "m") (some []) Option.none "https://b" Option.none
        Option.none (.int 1) 7 [] false (some c0)).result = .error (wrapGeneric gex) ∧
    (completionRun envNetErr (some "m") (some []) Option.none "https://b" Option.none
        Option.none (.int 1) 7 [("stream", .bool true)] false (some c0)).result =
      .error (wrapGeneric gex) ∧
    (acompletionRun envNetErr Option.none [] (.int 1) (some c0) []).result =
      .error (wrapGeneric gex) ∧
    (asyncStreamingRun envNetErr Option.none [] "m" (.int 1) 7 (some c0) []).result =
      .error (wrapGeneric gex) :=
  claim_C6_propagation_policy envNetErr gex c0 "m" [] Option.none "https://b"
    Option.none Option.none (.int 1) 7 [] [] rfl (fun _ _ => rfl)

/-- C4: when the endpoint contains `gateway.ai.cloudflare.com` and no
client handle is supplied, the adapter constructs the client from a
parameter dict rebuilt from scratch (`cfClientParams`) whose base url is
the endpoint with the model appended as a final path segment (it ends in
`/<model>`), and the request payload carries `model: None`. Shown on the
sync non-streaming path with succeeding externals; the trace records the
construction parameters and the payload actually sent. -/
theorem claim_C4_cloudflare_gateway (env : Env) (m : String) (msgs : List PyVal)
    (api_key : Option String) (api_base : String) (ver tok : Option String)
    (t : PyVal) (lg : Nat) (op : PyDict) (c : AzureClientObj) (r : VendorResponse)
    (hcf : strContains api_base "gateway.ai.cloudflare.com" = true)
    (hmodel : op.get "model" = Option.none)
    (hmr : op.get "max_retries" = Option.none)
    (hstream : streamRequested op = false)
    (hmk : ∀ b p, env.mkClient b p = .ok c)
    (hnet : ∀ d' t', env.netCall d' t' = .ok r) :
    (completionRun env (some m) (some msgs) api_key api_base ver tok t lg op false
        Option.none).trace =
      [.mk_client false
          (cfClientParams ver (cfRewriteBase api_base m) (.int 2) t api_key tok),
        .pre_call (.str (env.prompt_factory msgs m))
          (buildData true m (env.prompt_factory msgs m) op),
        .network_call (buildData true m (env.prompt_factory msgs m) op) t,
        .post_call (.str (env.prompt_factory msgs m)) r.dump] ∧
    (buildData true m (env.prompt_factory msgs m) op).get "model" = some PyVal.none ∧
    strEndsWith (cfRewriteBase api_base m) ("/" ++ m) = true := by
  refine ⟨?_, ?_, strEndsWith_cfRewriteBase api_base m⟩
  · simp [completionRun, PyDict.pop, hmr, hcf, hmk, dispatchRun, hstream,
      nonStreamingRun, PyVal.isInt, nonStreamFinish, hnet, finish]
  · exact PyDict.get_union_of_get_none _ hmodel

/-- Witness for C4 at concrete inputs. -/
theorem claim_C4_cloudflare_gateway_witness :
    (completionRun env0 (some "gpt-3") (some []) (some "k")
        "https://gateway.ai.cloudflare.com/acct/res" Option.none Option.none (.int 1)
        7 [] false Option.none).trace =
      [.mk_client false
          (cfClientParams Option.none
            (cfRewriteBase "https://gateway.ai.cloudflare.com/acct/res" "gpt-3")
            (.int 2) (.int 1) (some "k") Option.none),
        .pre_call (.str "p:gpt-3") (buildData true "gpt-3" "p:gpt-3" []),
        .network_call (buildData true "gpt-3" "p:gpt-3" []) (.int 1),
        .post_call (.str "p:gpt-3") r0.dump] ∧
    (buildData true "gpt-3" "p:gpt-3" []).get "model" = some PyVal.none ∧
    strEndsWith (cfRewriteBase "https://gateway.ai.cloudflare.com/acct/res" "gpt-3")
      ("/" ++ "gpt-3") = true :=
  claim_C4_cloudflare_gateway env0 "gpt-3" [] (some "k")
    "https://gateway.ai.cloudflare.com/acct/res" Option.none Option.none (.int 1) 7
    [] c0 r0 rfl rfl rfl rfl (fun _ _ => rfl) (fun _ _ => rfl)

/-- The network outcome never changes which client object a sync path
reports back. -/
theorem streamFinish_clientAfter (env : Env) (data : PyDict) (m : String)
    (t : PyVal) (lg : Nat) (after : Option AzureClientObj) (ev : List Event) :
    (streamFinish env data m t lg after ev).clientAfter = after := by
  unfold streamFinish
  cases env.netCall data t <;> rfl

/-- The network outcome never changes which client object the sync
non-streaming tail reports back. -/
theorem nonStreamFinish_clientAfter (env : Env) (data : PyDict) (pr : String)
    (t : PyVal) (after : Option AzureClientObj) (ev : List Event) :
    (nonStreamFinish env data pr t after ev).clientAfter = after := by
  unfold nonStreamFinish
  cases env.netCall data t <;> rfl

/-- C5: with a supplied client handle whose `_custom_query` is a mapping
`q`, and a non-None `api_version`, after the call (on both sync paths,
whatever the network outcome) the handle's `_custom_query` is
`q.setdefault("api-version", v)` and nothing else on the handle changed;
`setdefault` fills the key with the supplied version exactly when it was
absent and never overwrites an existing entry. -/
theorem claim_C5_api_version_set_if_absent (env : Env) (m : String) (msgs : List PyVal)
    (api_key : Option String) (api_base : String) (tok : Option String) (v : String)
    (t : PyVal) (lg : Nat) (stream : Bool) (c : AzureClientObj) (q : PyDict)
    (hq : c.custom_query = some q) :
    (completionRun env (some m) (some msgs) api_key api_base (some v) tok t lg
        [("stream", .bool stream)] false (some c)).finalClient =
      some { c with custom_query := some (q.setdefault "api-version" (.str v)) } ∧
    (q.get "api-version" = Option.none →
      (q.setdefault "api-version" (.str v)).get "api-version" = some (.str v)) ∧
    (∀ w, q.get "api-version" = some w → q.setdefault "api-version" (.str v) = q) := by
  refine ⟨?_, fun h => PyDict.get_setdefault_of_get_none _ h,
    fun w h => PyDict.setdefault_of_get_some _ h⟩
  cases hcf : strContains api_base "gateway.ai.cloudflare.com" <;>
    cases stream <;>
    simp [completionRun, PyDict.pop, PyDict.get, hcf, dispatchRun, streamRequested,
      PyVal.isTrue, PyDict.union, PyDict.insert, buildData, nonStreamingRun,
      streamingRun, PyVal.isInt, nonStreamFinish_clientAfter, streamFinish_clientAfter,
      finish, applyApiVersion, hq]

/-- Witness for C5 at concrete inputs. -/
theorem claim_C5_api_version_set_if_absent_witness :
    (completionRun env0 (some "m") (some []) Option.none "https://b" (some "2024-01-01")
        Option.none (.int 1) 7 [("stream", .bool false)] false (some c0)).finalClient =
      some { c0 with
        custom_query := some (PyDict.setdefault [] "api-version" (.str "2024-01-01")) } ∧
    (PyDict.get [] "api-version" = Option.none →
      (PyDict.setdefault [] "api-version" (.str "2024-01-01")).get "api-version" =
        some (.str "2024-01-01")) ∧
    (∀ w, PyDict.get [] "api-version" = some w →
      PyDict.setdefault [] "api-version" (.str "2024-01-01") = []) :=
  claim_C5_api_version_set_if_absent env0 "m" [] Option.none "https://b" Option.none
    "2024-01-01" (.int 1) 7 false c0 [] rfl

/-- C7: a streaming call whose establishing network call succeeds returns
the `CustomStreamWrapper` object — carrying the raw response exactly as the
network call produced it (unconsumed), the requested model name, the
provider identity `"azure_text"`, and the logging sink — on both the sync
and the awaited async streaming paths. -/
theorem claim_C7_stream_wrapper (env : Env) (m : String) (msgs : List PyVal)
    (api_key : Option String) (api_base : String) (ver tok : Option String)
    (t : PyVal) (lg : Nat) (c : AzureClientObj) (r : VendorResponse) (d params : PyDict)
    (hcf : strContains api_base "gateway.ai.cloudflare.com" = false)
    (hnet : ∀ d' t', env.netCall d' t' = .ok r) :
    (completionRun env (some m) (some msgs) api_key api_base ver tok t lg
        [("stream", .bool true)] false (some c)).result =
      .ok (.streamWrapper r m "azure_text" lg) ∧
    (asyncStreamingRun env ver d m t lg (some c) params).result =
      .ok (.streamWrapper r m "azure_text" lg) := by
  constructor
  · simp [completionRun, PyDict.pop, PyDict.get, hcf, dispatchRun, streamRequested,
      PyVal.isTrue, PyDict.union, buildData, streamingRun, PyVal.isInt, streamFinish,
      hnet, finish, runExcept]
  · simp [asyncStreamingRun, streamFinish, hnet]

/-- Witness for C7 at concrete inputs. -/
theorem claim_C7_stream_wrapper_witness :
    (completionRun env0 (some "m") (some []) Option.none "https://b" Option.none
        Option.none (.int 1) 7 [("stream", .bool true)] false (some c0)).result =
      .ok (.streamWrapper r0 "m" "azure_text" 7) ∧
    (asyncStreamingRun env0 Option.none [] "m" (.int 1) 7 (some c0) []).result =
      .ok (.streamWrapper r0 "m" "azure_text" 7) :=
  claim_C7_stream_wrapper env0 "m" [] Option.none "https://b" Option.none Option.none
    (.int 1) 7 c0 r0 [] [] rfl (fun _ _ => rfl)

/-- C8 counterexample: with `max_retries = "two"` on the fully synchronous
non-streaming path, the pre-call log event IS emitted and the 422
validation error is raised afterwards — so the retry-count validation does
NOT precede the pre-call log event as the claim states; the code logs
first (line 160) and validates after (line 173). -/
theorem claim_C8_counterexample :
    (completionRun env0 (some "m") (some []) Option.none "https://b" Option.none
        Option.none (.int 1) 9 [("max_retries", .str "two")] false
        Option.none).trace =
      [.pre_call (.str "p:m") [("model", .str "m"), ("prompt", .str "p:m")]] ∧
    (completionRun env0 (some "m") (some []) Option.none "https://b" Option.none
        Option.none (.int 1) 9 [("max_retries", .str "two")] false
        Option.none).result =
      .error ⟨422, "max retries must be an int", Option.none⟩ := by
  exact ⟨rfl, rfl⟩

/-- C8 (amended): on the fully synchronous non-streaming path the order of
operations is: pre-call log event, then the retry-count integer validation,
then the network call, then the post-call log event; in particular pre-call
logging strictly precedes the network call and the network call strictly
precedes post-call logging. (The claim's "validation, then pre-call log"
order is reversed in the code.) -/
theorem claim_C8_amended (env : Env) (m : String) (msgs : List PyVal)
    (api_key : Option String) (api_base : String) (ver tok : Option String)
    (t : PyVal) (lg : Nat) (c : AzureClientObj) (r : VendorResponse)
    (hcf : strContains api_base "gateway.ai.cloudflare.com" = false)
    (hnet : ∀ d' t', env.netCall d' t' = .ok r) :
    (completionRun env (some m) (some msgs) api_key api_base ver tok t lg [] false
        (some c)).trace =
      [.pre_call (.str (env.prompt_factory msgs m))
          (buildData false m (env.prompt_factory msgs m) []),
        .network_call (buildData false m (env.prompt_factory msgs m) []) t,
        .post_call (.str (env.prompt_factory msgs m)) r.dump] := by
  simp [completionRun, PyDict.pop, PyDict.get, hcf, dispatchRun, streamRequested,
    nonStreamingRun, PyVal.isInt, nonStreamFinish, hnet, finish, buildData,
    PyDict.union]

/-- Witness for the amended C8 at concrete inputs. -/
theorem claim_C8_amended_witness :
    (completionRun env0 (some "m") (some []) Option.none "https://b" Option.none
        Option.none (.int 1) 7 [] false (some c0)).trace =
      [.pre_call (.str "p:m") (buildData false "m" "p:m" []),
        .network_call (buildData false "m" "p:m" []) (.int 1),
        .post_call (.str "p:m") r0.dump] :=
  claim_C8_amended env0 "m" [] Option.none "https://b" Option.none Option.none
    (.int 1) 7 c0 r0 rfl (fun _ _ => rfl)

/-- C9: exactly one credential is ever used. In the headers built by
`validate_environment` and in the gateway client parameters: when an api
key is present it is used and the AD bearer token is ignored; only when the
key is absent and a token is present is the bearer/token field set; when
both are absent neither auth field is present. -/
theorem claim_C9_auth_precedence (k tkn burl : String) (tok ver : Option String)
    (mr t : PyVal) :
    ((validate_environment (some k) tok).get "api-key" = some (.str k) ∧
      (validate_environment (some k) tok).get "Authorization" = Option.none) ∧
    ((validate_environment Option.none (some tkn)).get "Authorization" =
        some (.str ("Bearer " ++ tkn)) ∧
      (validate_environment Option.none (some tkn)).get "api-key" = Option.none) ∧
    ((validate_environment Option.none Option.none).get "api-key" = Option.none ∧
      (validate_environment Option.none Option.none).get "Authorization" =
        Option.none) ∧
    ((cfClientParams ver burl mr t (some k) tok).get "api_key" = some (.str k) ∧
      (cfClientParams ver burl mr t (some k) tok).get "azure_ad_token" =
        Option.none) ∧
    ((cfClientParams ver burl mr t Option.none (some tkn)).get "azure_ad_token" =
        some (.str tkn) ∧
      (cfClientParams ver burl mr t Option.none (some tkn)).get "api_key" =
        Option.none) ∧
    ((cfClientParams ver burl mr t Option.none Option.none).get "api_key" =
        Option.none ∧
      (cfClientParams ver burl mr t Option.none Option.none).get "azure_ad_token" =
        Option.none) := by
  refine ⟨⟨?_, ?_⟩, ⟨?_, ?_⟩, ⟨?_, ?_⟩, ⟨?_, ?_⟩, ⟨?_, ?_⟩, ⟨?_, ?_⟩⟩ <;>
    simp [validate_environment, cfClientParams, PyDict.insert, PyDict.get]

/-- Every dispatch outcome reports back the options dict it was given. -/
theorem dispatchRun_finalOptionalParams (env : Env) (ev0 : List Event)
    (params : PyDict) (lc cc : Option AzureClientObj) (mn : Bool) (op : PyDict)
    (mr : PyVal) (pr m : String) (ver : Option String) (t : PyVal) (lg : Nat)
    (ac : Bool) :
    (dispatchRun env ev0 params lc cc mn op mr pr m ver t lg ac).finalOptionalParams =
      op := by
  unfold dispatchRun
  cases ac with
  | true => rfl
  | false =>
    by_cases hs : streamRequested op = true <;> simp [hs, finish]

/-- C10: for every call with model and messages present, the key
`max_retries` is removed in place from the caller's options dict (visible
after the call on every branch, async ones included), the popped value
defaults to 2 when the key was absent, and the request payload built from
the remaining options never contains a `max_retries` field. -/
theorem claim_C10_max_retries_removed (env : Env) (m : String) (msgs : List PyVal)
    (api_key : Option String) (api_base : String) (ver tok : Option String)
    (t : PyVal) (lg : Nat) (op : PyDict) (acomp : Bool)
    (client : Option AzureClientObj) :
    (completionRun env (some m) (some msgs) api_key api_base ver tok t lg op acomp
        client).finalOptionalParams = op.erase "max_retries" ∧
    (completionRun env (some m) (some msgs) api_key api_base ver tok t lg op acomp
        client).finalOptionalParams.get "max_retries" = Option.none ∧
    (op.get "max_retries" = Option.none → (op.pop "max_retries" (.int 2)).1 = .int 2) ∧
    (∀ mn pm, (buildData mn m pm (op.erase "max_retries")).get "max_retries" =
      Option.none) := by
  have hfinal : (completionRun env (some m) (some msgs) api_key api_base ver tok t lg
      op acomp client).finalOptionalParams = op.erase "max_retries" := by
    rw [← PyDict.pop_snd_eq_erase op "max_retries" (.int 2)]
    unfold completionRun
    cases hcf : strContains api_base "gateway.ai.cloudflare.com" with
    | false => simp [hcf, dispatchRun_finalOptionalParams]
    | true =>
      cases client with
      | none =>
        cases hmk : env.mkClient acomp (cfClientParams ver (cfRewriteBase api_base m)
            (op.pop "max_retries" (.int 2)).1 t api_key tok) with
        | error g => simp [hcf, hmk]
        | ok c2 => simp [hcf, hmk, dispatchRun_finalOptionalParams]
      | some c => simp [hcf, dispatchRun_finalOptionalParams]
  refine ⟨hfinal, ?_, fun h => PyDict.pop_fst_of_get_none _ h, fun mn pm => ?_⟩
  · rw [hfinal]; exact PyDict.get_erase_self op "max_retries"
  · apply PyDict.get_union_of_get_none
    exact PyDict.get_erase_self op "max_retries"

/-- Witness for C10 at concrete inputs. -/
theorem claim_C10_max_retries_removed_witness :
    (completionRun env0 (some "m") (some []) Option.none "https://b" Option.none
        Option.none (.int 1) 7 [("max_retries", .int 9), ("stream", .bool true)]
        false Option.none).finalOptionalParams =
      PyDict.erase [("max_retries", .int 9), ("stream", .bool true)] "max_retries" ∧
    (completionRun env0 (some "m") (some []) Option.none "https://b" Option.none
        Option.none (.int 1) 7 [("max_retries", .int 9), ("stream", .bool true)]
        false Option.none).finalOptionalParams.get "max_retries" = Option.none ∧
    (PyDict.get [("max_retries", .int 9), ("stream", .bool true)] "max_retries" =
        Option.none →
      (PyDict.pop [("max_retries", .int 9), ("stream", .bool true)] "max_retries"
        (.int 2)).1 = .int 2) ∧
    (∀ mn pm, (buildData mn "m" pm
        (PyDict.erase [("max_retries", .int 9), ("stream", .bool true)]
          "max_retries")).get "max_retries" = Option.none) :=
  claim_C10_max_retries_removed env0 "m" [] Option.none "https://b" Option.none
    Option.none (.int 1) 7 [("max_retries", .int 9), ("stream", .bool true)] false
    Option.none

end AzureText
